import Mathlib

/-!
Verification of the credential-caching core of `pyo3-object_store`
(`src/credentials.rs`, `src/gcp/credentials.rs`, `src/aws/credentials.rs`).

Modelling conventions:

* Wall-clock instants (`chrono::DateTime<Utc>`) and durations
  (`chrono::TimeDelta`) are integers counting milliseconds.  Subtraction of
  two instants yields a duration, exactly as in chrono.
* `tokio::sync::Mutex` serializes all callers of `get_or_insert_with`: the
  lock is held for the whole body (including the refresh `await`), so a set
  of concurrent callers is modelled as a sequence of complete calls on the
  evolving cache state (`runCallers` below).
* The Rust body samples the wall clock three times: `now` at line 64
  (before taking the lock), a re-sampled time in the backoff comparison at
  line 77 (`Utc::now() - fetched_at`), and the insertion time at line 88
  (`Utc::now()` after the refresh completed).  The model takes these three
  samples as explicit parameters `now`, `nowB`, `nowI`, in that order.
* The refresh closure `f` is awaited exactly zero or one times per call, so
  it is modelled by its result value `Except E (TemporaryToken T)`; the
  third component of the result records whether the closure was invoked.
-/

namespace ObstoreCredentials

/-- Duration constructors, mirroring `chrono::TimeDelta`; the unit is the
millisecond. -/
def TimeDelta.milliseconds (ms : Int) : Int := ms

/-- `chrono::TimeDelta::seconds`. -/
def TimeDelta.seconds (s : Int) : Int := s * 1000

/-- `chrono::TimeDelta::minutes`. -/
def TimeDelta.minutes (m : Int) : Int := m * 60000

/-- `chrono::TimeDelta::zero`. -/
def TimeDelta.zero : Int := 0

/-- A temporary authentication token with an associated expiry
(`TemporaryToken<T>`, credentials.rs lines 9-17).  `expiry = none` means the
credential does not expire. -/
structure TemporaryToken (T : Type) where
  token : T
  expiry : Option Int
  deriving Repr, DecidableEq

/-- The cache state (`TokenCache<T>`, credentials.rs lines 21-29).  `cache`
is the content of the mutex-guarded slot: an optional temporary token
together with the instant at which it was fetched. -/
structure TokenCache (T : Type) where
  cache : Option (TemporaryToken T × Int)
  min_ttl : Int
  fetch_backoff : Int
  deriving Repr, DecidableEq

/-- `impl Default for TokenCache` (credentials.rs lines 31-39): empty slot,
`min_ttl` of 300 seconds, `fetch_backoff` of 100 milliseconds. -/
def TokenCache.default (T : Type) : TokenCache T where
  cache := none
  min_ttl := TimeDelta.seconds 300
  fetch_backoff := TimeDelta.milliseconds 100

/-- `impl Clone for TokenCache` (credentials.rs lines 41-50): cloning the
token cache invalidates the cache (the slot of the clone is a fresh default,
i.e. empty). -/
def TokenCache.clone (c : TokenCache T) : TokenCache T where
  cache := none
  min_ttl := c.min_ttl
  fetch_backoff := c.fetch_backoff

/-- `TokenCache::with_min_ttl` (credentials.rs lines 54-56). -/
def TokenCache.with_min_ttl (c : TokenCache T) (m : Int) : TokenCache T :=
  { c with min_ttl := m }

/-- `TokenCache::get_or_insert_with` (credentials.rs lines 58-91).

`now` is the wall clock sampled at line 64, `nowB` the wall clock
re-sampled inside the backoff comparison at line 77, and `nowI` the wall
clock sampled at the insertion at line 88.  `f` is the result of the
refresh closure.  Returns the call's result, the new slot state, and
whether the refresh closure was invoked. -/
def TokenCache.get_or_insert_with (c : TokenCache T) (now nowB nowI : Int)
    (f : Except E (TemporaryToken T)) :
    Except E T × TokenCache T × Bool :=
  let hit : Option T :=
    match c.cache with
    | some (cached, fetched_at) =>
      match cached.expiry with
      | some expiry_time =>
        if expiry_time - now > c.min_ttl ∨
            (nowB - fetched_at < c.fetch_backoff ∧
              expiry_time - now > TimeDelta.zero) then
          some cached.token
        else
          none
      | none => some cached.token
    | none => none
  match hit with
  | some tok => (Except.ok tok, c, false)
  | none =>
    match f with
    | Except.error e => (Except.error e, c, true)
    | Except.ok fresh =>
      (Except.ok fresh.token, { c with cache := some (fresh, nowI) }, true)

/-- A sequence of callers serialized by the cache's mutex: each caller runs
the complete body of `get_or_insert_with` on the state left by the previous
caller, with all three wall-clock samples of that caller equal to the
instant `t` at which it holds the lock.  Returns the list of results, the
final state, and the total number of refresh invocations. -/
def runCallers (c : TokenCache T) (f : Except E (TemporaryToken T)) :
    List Int → List (Except E T) × TokenCache T × Nat
  | [] => ([], c, 0)
  | t :: ts =>
    let step := c.get_or_insert_with t t t f
    let rest := runCallers step.2.1 f ts
    (step.1 :: rest.1, rest.2.1, (if step.2.2 then 1 else 0) + rest.2.2)

/-- The slot is empty, or its token's expiry is at or before `now`. -/
def expiredOrEmpty (c : TokenCache T) (now : Int) : Prop :=
  c.cache = none ∨
    ∃ cached fa et, c.cache = some (cached, fa) ∧
      cached.expiry = some et ∧ et ≤ now

/-- The token is reusable at `now` on a non-backoff path: it never
expires, or its expiry exceeds `now` by more than `min_ttl`. -/
def freshValid (tok : TemporaryToken T) (min_ttl now : Int) : Prop :=
  tok.expiry = none ∨ ∃ e, tok.expiry = some e ∧ e - now > min_ttl

/-- Model of the GCP provider's default minimum TTL
(`DEFAULT_GCP_MIN_TTL`, gcp/credentials.rs line 15). -/
def DEFAULT_GCP_MIN_TTL : Int := TimeDelta.minutes 4

/-- The cache built by `impl FromPyObject for PyGcpCredentialProvider`
(gcp/credentials.rs lines 85-91): use the callback's `refresh_threshold`
attribute when present, otherwise `DEFAULT_GCP_MIN_TTL`, as the minimum TTL
of an otherwise-default cache. -/
def pyGcpProviderCache (T : Type) (refresh_threshold : Option Int) :
    TokenCache T :=
  let min_ttl :=
    match refresh_threshold with
    | some r => r
    | none => DEFAULT_GCP_MIN_TTL
  (TokenCache.default T).with_min_ttl min_ttl

/-- `PyAWSCredentialProvider` (aws/credentials.rs lines 56-63), keeping the
fields relevant to cache behaviour; the Python callback object and the
optional S3 config are opaque values of types `C` and `G`. -/
structure PyAWSCredentialProvider (C G T : Type) where
  user_callback : C
  cache : TokenCache T
  config : Option G

/-- `impl Clone for PyAWSCredentialProvider` (aws/credentials.rs lines
78-87): the callback reference and config are copied, the cache is cloned
(and hence emptied). -/
def PyAWSCredentialProvider.clone (p : PyAWSCredentialProvider C G T) :
    PyAWSCredentialProvider C G T where
  user_callback := p.user_callback
  cache := p.cache.clone
  config := p.config

/-- A call that finds a token valid on a non-backoff path returns a clone of
the cached token, leaves the state unchanged and does not invoke the
closure. -/
theorem get_hit_of_valid {T E : Type} (c : TokenCache T)
    (tok : TemporaryToken T) (fa now nowB nowI : Int)
    (f : Except E (TemporaryToken T))
    (hslot : c.cache = some (tok, fa))
    (hval : freshValid tok c.min_ttl now) :
    c.get_or_insert_with now nowB nowI f = (Except.ok tok.token, c, false) := by
  rcases hval with hnone | ⟨e, he, hgt⟩
  · simp [TokenCache.get_or_insert_with, hslot, hnone]
  · simp [TokenCache.get_or_insert_with, hslot, he, hgt]

/-- With an empty or at-or-past-expiry slot (and a nonnegative `min_ttl`),
the call takes the refresh path; a failing closure propagates its error and
leaves the slot untouched. -/
theorem get_refresh_error {T E : Type} (c : TokenCache T)
    (now nowB nowI : Int) (e : E)
    (hmin : 0 ≤ c.min_ttl) (hexp : expiredOrEmpty c now) :
    c.get_or_insert_with now nowB nowI (Except.error e) =
      (Except.error e, c, true) := by
  rcases hexp with hnone | ⟨cached, fa, et, hslot, he, hle⟩
  · simp [TokenCache.get_or_insert_with, hnone]
  · have hcond : ¬(et - now > c.min_ttl ∨
        (nowB - fa < c.fetch_backoff ∧ et - now > TimeDelta.zero)) := by
      unfold TimeDelta.zero
      omega
    simp [TokenCache.get_or_insert_with, hslot, he, hcond]

/-- With an empty or at-or-past-expiry slot (and a nonnegative `min_ttl`),
the call takes the refresh path; a succeeding closure has its token
installed with the insertion-time sample and returned. -/
theorem get_refresh_ok {T E : Type} (c : TokenCache T)
    (now nowB nowI : Int) (fresh : TemporaryToken T)
    (hmin : 0 ≤ c.min_ttl) (hexp : expiredOrEmpty c now) :
    TokenCache.get_or_insert_with (E := E) c now nowB nowI (Except.ok fresh) =
      (Except.ok fresh.token, { c with cache := some (fresh, nowI) }, true) := by
  rcases hexp with hnone | ⟨cached, fa, et, hslot, he, hle⟩
  · simp [TokenCache.get_or_insert_with, hnone]
  · have hcond : ¬(et - now > c.min_ttl ∨
        (nowB - fa < c.fetch_backoff ∧ et - now > TimeDelta.zero)) := by
      unfold TimeDelta.zero
      omega
    simp [TokenCache.get_or_insert_with, hslot, he, hcond]

/-- A serialized sequence of callers over a slot whose token stays valid at
every caller's instant: everyone gets the cached token, nobody refreshes,
the state never changes. -/
theorem runCallers_valid {T E : Type} (c : TokenCache T)
    (tok : TemporaryToken T) (fa : Int) (f : Except E (TemporaryToken T))
    (ts : List Int)
    (hslot : c.cache = some (tok, fa))
    (hval : ∀ t ∈ ts, freshValid tok c.min_ttl t) :
    runCallers c f ts =
      (List.replicate ts.length (Except.ok tok.token), c, 0) := by
  induction ts with
  | nil => simp [runCallers]
  | cons t ts ih =>
    have h1 := get_hit_of_valid c tok fa t t t f hslot (hval t (by simp))
    have h2 := ih (fun u hu => hval u (by simp [hu]))
    simp [runCallers, h1, h2, List.replicate_succ]

/-- C1: when concurrent callers (serialized by the slot's mutex) invoke
`get_or_insert_with` while the cached token is expired or the slot is
empty, and the refresh closure produces a token valid at every later
caller's instant, exactly one caller invokes the refresh closure and every
caller returns the freshly installed token. -/
theorem single_refresh_under_concurrency {T E : Type} (c : TokenCache T)
    (t0 : Int) (ts : List Int) (fresh : TemporaryToken T)
    (hmin : 0 ≤ c.min_ttl)
    (hexp : expiredOrEmpty c t0)
    (hval : ∀ t ∈ ts, freshValid fresh c.min_ttl t) :
    runCallers (E := E) c (Except.ok fresh) (t0 :: ts) =
      (List.replicate (ts.length + 1) (Except.ok fresh.token),
        { c with cache := some (fresh, t0) }, 1) := by
  have hstep := get_refresh_ok (E := E) c t0 t0 t0 fresh hmin hexp
  have hrest := runCallers_valid (E := E) { c with cache := some (fresh, t0) }
    fresh t0 (Except.ok fresh) ts rfl hval
  simp [runCallers, hstep, hrest, List.replicate_succ]

/-- Witness for C1: four serialized callers on an initially empty cache, a
refresh closure producing a far-future token; the closure runs once and all
four callers get the fresh token. -/
theorem single_refresh_under_concurrency_witness :
    runCallers (E := Unit)
      { cache := none, min_ttl := 300000, fetch_backoff := 100 }
      (Except.ok { token := 7, expiry := some 10000000 }) [0, 1, 2, 3] =
      ([Except.ok 7, Except.ok 7, Except.ok 7, Except.ok 7],
        { cache := some ({ token := 7, expiry := some 10000000 }, 0),
          min_ttl := 300000, fetch_backoff := 100 }, 1) :=
  single_refresh_under_concurrency _ 0 [1, 2, 3] _ (by decide) (Or.inl rfl)
    (by
      intro t ht
      refine Or.inr ⟨10000000, rfl, ?_⟩
      fin_cases ht <;> decide)

/-- C2: once the slot holds a token whose expiry is `none`, any number of
subsequent calls, at arbitrary instants, return the cached token without
ever invoking the refresh closure and without changing the slot. -/
theorem never_expiring_reuse {T E : Type} (c : TokenCache T)
    (tok : TemporaryToken T) (fa : Int) (f : Except E (TemporaryToken T))
    (ts : List Int)
    (hslot : c.cache = some (tok, fa)) (hexp : tok.expiry = none) :
    runCallers c f ts =
      (List.replicate ts.length (Except.ok tok.token), c, 0) :=
  runCallers_valid c tok fa f ts hslot (fun _ _ => Or.inl hexp)

/-- Witness for C2: three calls at widely spaced instants on a cache
holding a never-expiring token; all return the token, zero refreshes. -/
theorem never_expiring_reuse_witness :
    runCallers (E := Unit)
      { cache := some ({ token := 7, expiry := none }, 0),
        min_ttl := 300000, fetch_backoff := 100 }
      (Except.error ()) [5, 1000000000, 123] =
      ([Except.ok 7, Except.ok 7, Except.ok 7],
        { cache := some ({ token := 7, expiry := none }, 0),
          min_ttl := 300000, fetch_backoff := 100 }, 0) :=
  never_expiring_reuse
    { cache := some ({ token := 7, expiry := none }, 0),
      min_ttl := 300000, fetch_backoff := 100 }
    { token := 7, expiry := none } 0 (Except.error ())
    [5, 1000000000, 123] rfl rfl

/-- C3: a cached token whose expiry exceeds the call's clock sample by more
than `min_ttl` is returned as-is, without invoking the refresh closure. -/
theorem ample_ttl_reuse {T E : Type} (c : TokenCache T)
    (tok : TemporaryToken T) (fa et now nowB nowI : Int)
    (f : Except E (TemporaryToken T))
    (hslot : c.cache = some (tok, fa)) (hexp : tok.expiry = some et)
    (h : et - now > c.min_ttl) :
    c.get_or_insert_with now nowB nowI f = (Except.ok tok.token, c, false) :=
  get_hit_of_valid c tok fa now nowB nowI f hslot (Or.inr ⟨et, hexp, h⟩)

/-- Witness for C3: a token with `min_ttl + 1` more than the ample margin
remaining is returned without refresh. -/
theorem ample_ttl_reuse_witness :
    TokenCache.get_or_insert_with (E := Unit)
      { cache := some ({ token := 7, expiry := some 300001 }, 0),
        min_ttl := 300000, fetch_backoff := 100 }
      0 0 0 (Except.error ()) =
      (Except.ok 7,
        { cache := some ({ token := 7, expiry := some 300001 }, 0),
          min_ttl := 300000, fetch_backoff := 100 }, false) :=
  ample_ttl_reuse
    { cache := some ({ token := 7, expiry := some 300001 }, 0),
      min_ttl := 300000, fetch_backoff := 100 }
    { token := 7, expiry := some 300001 } 0 300001 0 0 0
    (Except.error ()) rfl rfl (by decide)

/-- C4: with a cached token inside the `min_ttl` margin but not yet hard
expired, a call whose re-sampled clock is within `fetch_backoff` of
`fetched_at` returns the stale token without refreshing, while a call at or
past the backoff spacing invokes the refresh closure. -/
theorem backoff_grace_window {T E : Type} (c : TokenCache T)
    (tok : TemporaryToken T) (fa et now nowB nowI : Int)
    (f : Except E (TemporaryToken T))
    (hslot : c.cache = some (tok, fa)) (hexp : tok.expiry = some et)
    (h1 : et - now ≤ c.min_ttl) (h2 : TimeDelta.zero < et - now) :
    (nowB - fa < c.fetch_backoff →
      c.get_or_insert_with now nowB nowI f =
        (Except.ok tok.token, c, false)) ∧
    (c.fetch_backoff ≤ nowB - fa →
      (c.get_or_insert_with now nowB nowI f).2.2 = true) := by
  constructor
  · intro hb
    have hcond : et - now > c.min_ttl ∨
        (nowB - fa < c.fetch_backoff ∧ et - now > TimeDelta.zero) :=
      Or.inr ⟨hb, h2⟩
    simp [TokenCache.get_or_insert_with, hslot, hexp, hcond]
  · intro hb
    have hcond : ¬(et - now > c.min_ttl ∨
        (nowB - fa < c.fetch_backoff ∧ et - now > TimeDelta.zero)) := by
      unfold TimeDelta.zero at h2 ⊢
      omega
    cases f <;> simp [TokenCache.get_or_insert_with, hslot, hexp, hcond]

/-- Witness for C4: token expiring in 50 ms with `min_ttl` 300 ms and
backoff 100 ms, fetched at instant 0: a call re-sampling at 10 returns the
stale token; a call re-sampling at 200 invokes the closure. -/
theorem backoff_grace_window_witness :
    (TokenCache.get_or_insert_with (E := Unit)
        { cache := some ({ token := 7, expiry := some 50 }, 0),
          min_ttl := 300, fetch_backoff := 100 }
        0 10 10 (Except.error ()) =
      (Except.ok 7,
        { cache := some ({ token := 7, expiry := some 50 }, 0),
          min_ttl := 300, fetch_backoff := 100 }, false)) ∧
    (TokenCache.get_or_insert_with (E := Unit)
        { cache := some ({ token := 7, expiry := some 50 }, 0),
          min_ttl := 300, fetch_backoff := 100 }
        0 200 200 (Except.error ())).2.2 = true := by
  constructor
  · exact (backoff_grace_window
      { cache := some ({ token := 7, expiry := some 50 }, 0),
        min_ttl := 300, fetch_backoff := 100 }
      { token := 7, expiry := some 50 } 0 50 0 10 10
      (Except.error ()) rfl rfl (by decide) (by decide)).1 (by decide)
  · exact (backoff_grace_window
      { cache := some ({ token := 7, expiry := some 50 }, 0),
        min_ttl := 300, fetch_backoff := 100 }
      { token := 7, expiry := some 50 } 0 50 0 200 200
      (Except.error ()) rfl rfl (by decide) (by decide)).2 (by decide)

/-- C5: a failing refresh propagates its error unwrapped and leaves the
slot exactly as it was; a subsequent call with a succeeding closure then
performs a normal fresh fetch, installing and returning the new token. -/
theorem refresh_error_propagates {T E : Type} (c : TokenCache T)
    (now nowB nowI now2 nowB2 nowI2 : Int) (e : E)
    (fresh : TemporaryToken T)
    (hmin : 0 ≤ c.min_ttl)
    (hexp : expiredOrEmpty c now) (hexp2 : expiredOrEmpty c now2) :
    c.get_or_insert_with now nowB nowI (Except.error e) =
      (Except.error e, c, true) ∧
    TokenCache.get_or_insert_with (E := E)
        (c.get_or_insert_with now nowB nowI (Except.error e)).2.1
        now2 nowB2 nowI2 (Except.ok fresh) =
      (Except.ok fresh.token, { c with cache := some (fresh, nowI2) }, true) := by
  have h1 := get_refresh_error c now nowB nowI e hmin hexp
  refine ⟨h1, ?_⟩
  rw [h1]
  exact get_refresh_ok (E := E) c now2 nowB2 nowI2 fresh hmin hexp2

/-- Witness for C5: on a cache holding an expired token, a failing refresh
returns the error and keeps the old entry; the next call installs the new
token. -/
theorem refresh_error_propagates_witness :
    TokenCache.get_or_insert_with
      { cache := some ({ token := 7, expiry := some 0 }, 0),
        min_ttl := 300000, fetch_backoff := 100 }
      1000 1000 1000 (Except.error "bad") =
      (Except.error "bad",
        { cache := some ({ token := 7, expiry := some 0 }, 0),
          min_ttl := 300000, fetch_backoff := 100 }, true) ∧
    TokenCache.get_or_insert_with (E := String)
      (TokenCache.get_or_insert_with
        { cache := some ({ token := 7, expiry := some 0 }, 0),
          min_ttl := 300000, fetch_backoff := 100 }
        1000 1000 1000 (Except.error "bad")).2.1
      2000 2000 2000 (Except.ok { token := 9, expiry := some 10000000 }) =
      (Except.ok 9,
        { cache := some ({ token := 9, expiry := some 10000000 }, 2000),
          min_ttl := 300000, fetch_backoff := 100 }, true) :=
  refresh_error_propagates
    { cache := some ({ token := 7, expiry := some 0 }, 0),
      min_ttl := 300000, fetch_backoff := 100 }
    1000 1000 1000 2000 2000 2000 "bad"
    { token := 9, expiry := some 10000000 } (by decide)
    (Or.inr ⟨{ token := 7, expiry := some 0 }, 0, 0, rfl, rfl, by decide⟩)
    (Or.inr ⟨{ token := 7, expiry := some 0 }, 0, 0, rfl, rfl, by decide⟩)

/-- C6: a call whose closure succeeds either leaves the state untouched
(cache hit, closure not invoked) or overwrites the slot with the fresh
token paired with the insertion-time clock sample and returns the fresh
token — so `fetched_at` always records when the stored token was
inserted. -/
theorem fetched_at_invariant {T E : Type} (c : TokenCache T)
    (now nowB nowI : Int) (fresh : TemporaryToken T) :
    ((TokenCache.get_or_insert_with (E := E) c now nowB nowI
        (Except.ok fresh)).2.1 = c ∧
      (TokenCache.get_or_insert_with (E := E) c now nowB nowI
        (Except.ok fresh)).2.2 = false) ∨
    TokenCache.get_or_insert_with (E := E) c now nowB nowI
        (Except.ok fresh) =
      (Except.ok fresh.token, { c with cache := some (fresh, nowI) }, true) := by
  rcases hc : c.cache with _ | ⟨cached, fa⟩
  · exact Or.inr (by simp [TokenCache.get_or_insert_with, hc])
  · rcases he : cached.expiry with _ | et
    · exact Or.inl
        (by constructor <;> simp [TokenCache.get_or_insert_with, hc, he])
    · by_cases hcond : et - now > c.min_ttl ∨
        (nowB - fa < c.fetch_backoff ∧ et - now > TimeDelta.zero)
      · exact Or.inl
          (by constructor <;>
            simp [TokenCache.get_or_insert_with, hc, he, hcond])
      · exact Or.inr
          (by simp [TokenCache.get_or_insert_with, hc, he, hcond])

/-- C7: given a token inside the `min_ttl` margin, the call skips the
refresh exactly when the grace guard holds with the re-sampled clock
`nowB`: the backoff window is measured from `fetched_at` to the moment the
check runs, independently of the step-1 sample `now`. -/
theorem backoff_uses_resampled_time {T E : Type} (c : TokenCache T)
    (tok : TemporaryToken T) (fa et now nowB nowI : Int)
    (f : Except E (TemporaryToken T))
    (hslot : c.cache = some (tok, fa)) (hexp : tok.expiry = some et)
    (hno : ¬ et - now > c.min_ttl) :
    (c.get_or_insert_with now nowB nowI f).2.2 = false ↔
      (nowB - fa < c.fetch_backoff ∧ TimeDelta.zero < et - now) := by
  by_cases hcond : et - now > c.min_ttl ∨
      (nowB - fa < c.fetch_backoff ∧ et - now > TimeDelta.zero)
  · have hgrace : nowB - fa < c.fetch_backoff ∧ TimeDelta.zero < et - now := by
      rcases hcond with h | h
      · exact absurd h hno
      · exact h
    simp [TokenCache.get_or_insert_with, hslot, hexp, hcond, hgrace]
  · have hgrace : ¬(nowB - fa < c.fetch_backoff ∧ TimeDelta.zero < et - now) :=
      fun h => hcond (Or.inr h)
    cases f <;>
      simp [TokenCache.get_or_insert_with, hslot, hexp, hcond, hgrace, hno]

/-- Witness for C7: same step-1 sample `now = 0`, two different re-sampled
clocks; the guard follows the re-sampled clock. -/
theorem backoff_uses_resampled_time_witness :
    ((TokenCache.get_or_insert_with (E := Unit)
        { cache := some ({ token := 7, expiry := some 50 }, 0),
          min_ttl := 300, fetch_backoff := 100 }
        0 10 10 (Except.error ())).2.2 = false ↔
      ((10 : Int) - 0 < 100 ∧ TimeDelta.zero < (50 : Int) - 0)) ∧
    ((TokenCache.get_or_insert_with (E := Unit)
        { cache := some ({ token := 7, expiry := some 50 }, 0),
          min_ttl := 300, fetch_backoff := 100 }
        0 200 200 (Except.error ())).2.2 = false ↔
      ((200 : Int) - 0 < 100 ∧ TimeDelta.zero < (50 : Int) - 0)) :=
  ⟨backoff_uses_resampled_time
      { cache := some ({ token := 7, expiry := some 50 }, 0),
        min_ttl := 300, fetch_backoff := 100 }
      { token := 7, expiry := some 50 } 0 50 0 10 10
      (Except.error ()) rfl rfl (by decide),
   backoff_uses_resampled_time
      { cache := some ({ token := 7, expiry := some 50 }, 0),
        min_ttl := 300, fetch_backoff := 100 }
      { token := 7, expiry := some 50 } 0 50 0 200 200
      (Except.error ()) rfl rfl (by decide)⟩

/-- C8: cloning a `TokenCache` (or an adapter owning one) yields an empty
slot with the same policy fields, whatever the original state, so the first
call on the clone always invokes the refresh closure. -/
theorem clone_empties_cache {C G T E : Type} (c : TokenCache T)
    (p : PyAWSCredentialProvider C G T) (now nowB nowI : Int)
    (f : Except E (TemporaryToken T)) :
    c.clone.cache = none ∧
    c.clone.min_ttl = c.min_ttl ∧
    c.clone.fetch_backoff = c.fetch_backoff ∧
    p.clone.cache.cache = none ∧
    (c.clone.get_or_insert_with now nowB nowI f).2.2 = true := by
  refine ⟨rfl, rfl, rfl, rfl, ?_⟩
  cases f <;> rfl

/-- C9: a default `TokenCache` has an empty slot, a `min_ttl` of 300
seconds and a `fetch_backoff` of 100 milliseconds. -/
theorem default_token_cache_spec (T : Type) :
    (TokenCache.default T).cache = none ∧
    (TokenCache.default T).min_ttl = TimeDelta.seconds 300 ∧
    (TokenCache.default T).fetch_backoff = TimeDelta.milliseconds 100 ∧
    TimeDelta.seconds 300 = 300000 ∧
    TimeDelta.milliseconds 100 = 100 :=
  ⟨rfl, rfl, rfl, rfl, rfl⟩

/-- C10: a GCP provider built from a callback with no `refresh_threshold`
attribute gets a cache with `min_ttl` of 4 minutes (240 seconds), not the
300-second default; a `refresh_threshold` attribute overrides it. -/
theorem gcp_default_min_ttl (T : Type) (r : Int) :
    (pyGcpProviderCache T none).min_ttl = TimeDelta.minutes 4 ∧
    TimeDelta.minutes 4 = TimeDelta.seconds 240 ∧
    (pyGcpProviderCache T none).min_ttl ≠ (TokenCache.default T).min_ttl ∧
    (pyGcpProviderCache T (some r)).min_ttl = r :=
  ⟨rfl, rfl,
    by
      norm_num [pyGcpProviderCache, TokenCache.with_min_ttl,
        TokenCache.default, DEFAULT_GCP_MIN_TTL, TimeDelta.minutes,
        TimeDelta.seconds],
    rfl⟩

end ObstoreCredentials
